import Mathlib

/-!
Verification development for the responsive-image-advisor-ai repository.

The repository is JavaScript: a host-side selection bridge
(`src/unnamed/part_002`, mirrored in `src/public/webflow-app.js`) and a
panel controller (`src/public/panel.js`).  This file shallowly embeds the
functions the claims are about, translating JavaScript values as follows:

* JS numbers are `JsNum` (NaN, the two infinities, or a finite rational);
  finite doubles are modelled as rationals `ℚ`.
* A JS value appearing in a width slot is `JsVal`: `absent` models both
  `null` and `undefined`; a string is modelled by its truthiness
  (non-emptiness) together with its `Number.parseFloat` image; `other`
  models any remaining value by its truthiness alone.
* JS objects become structures whose optional fields are `Option`s, with
  `none` standing for an absent/nullish (and for string fields, falsy)
  value.  `a ?? b` and `a || b` on such fields both become `<|>`; the
  two operators differ in JS only on falsy non-nullish values, which the
  `Option` encoding already folds into `none` for the fields concerned.
* DOM interaction is modelled by data: `resolveDomNode`'s
  document-dependent lookup is represented by the environment supplying
  the resolved node in the `domNode` field, a node's
  `getBoundingClientRect().width` is the `rectWidth` field, computed
  background-image state is the `hasBgImage` flag, and
  `querySelector(MEDIA_SELECTOR)` is the `nestedMedia` field.
  `postMessage` on a live window is assumed to succeed; whether
  `typeof source.postMessage === 'function'` holds is the `canPost` flag.
* Asynchronous `await` points are sequenced in program order; timers are
  modelled as explicit tick events.
-/

/-- A JavaScript number: NaN, ±Infinity, or a finite value (as `ℚ`). -/
inductive JsNum where
  | nan
  | posInf
  | negInf
  | val (q : ℚ)
deriving DecidableEq, Repr

/-- A JavaScript value sitting in a width-like slot.  `absent` is
`null`/`undefined`; `str truthy parsed` is a string modelled by its
truthiness and its `Number.parseFloat` image; `other` is any remaining
value modelled by its truthiness. -/
inductive JsVal where
  | absent
  | num (n : JsNum)
  | str (truthy : Bool) (parsed : JsNum)
  | other (truthy : Bool)
deriving DecidableEq, Repr

namespace JsVal

/-- JS truthiness of a modelled value. -/
def truthy : JsVal → Bool
  | absent => false
  | num .nan => false
  | num .posInf => true
  | num .negInf => true
  | num (.val q) => q != 0
  | str t _ => t
  | other t => t

/-- Whether the value is nullish (`null` or `undefined`). -/
def isNullish : JsVal → Bool
  | absent => true
  | _ => false

end JsVal

/-- `Math.round`: round to nearest, half toward `+∞`, i.e.
`⌊q + 1/2⌋`, computed by integer division so that the kernel can
evaluate it (`jsRound_eq_floor` below). -/
def jsRound (q : ℚ) : ℤ := (2 * q.num + q.den) / (2 * (q.den : ℤ))

/-- `toFiniteNumber` (panel.js): a positive finite number, or the
positive finite parse of a string, unrounded; otherwise `null`. -/
def toFiniteNumber : JsVal → Option ℚ
  | .num (.val q) => if 0 < q then some q else none
  | .num _ => none
  | .str _ (.val q) => if 0 < q then some q else none
  | .str _ _ => none
  | _ => none

/-- `toPositiveNumber` (bridge): like `toFiniteNumber` but rounded with
`Math.round` before being returned. -/
def toPositiveNumber : JsVal → Option ℤ
  | .num (.val q) => if 0 < q then some (jsRound q) else none
  | .num _ => none
  | .str _ (.val q) => if 0 < q then some (jsRound q) else none
  | .str _ _ => none
  | _ => none

/-- A raw `widths` object with up to three breakpoint entries
(`{desktop, tablet, mobile}`). -/
structure WidthsObj where
  desktop : JsVal := .absent
  tablet : JsVal := .absent
  mobile : JsVal := .absent
deriving DecidableEq, Repr

/-- A `computedWidths` object (`{desktop, mobile}`). -/
structure CompWidthsObj where
  desktop : JsVal := .absent
  mobile : JsVal := .absent
deriving DecidableEq, Repr

/-- The Designer breakpoint reported by `getCurrentDevice`. -/
inductive Device where
  | desktop
  | tablet
  | mobile
deriving DecidableEq, Repr

/-- Common data of a DOM node as observed by the bridge: tag name, id,
class list, element-ness, computed background-image presence and
bounding-rect width.  `none` in a string field models a falsy
(null/undefined/empty) value. -/
structure MediaNode where
  tagName : Option String := none
  id : Option String := none
  classes : List String := []
  isElement : Bool := true
  hasBgImage : Bool := false
  rectWidth : JsVal := .absent
deriving DecidableEq, Repr

/-- A resolved DOM node; `nestedMedia` is the result of
`querySelector(MEDIA_SELECTOR)` on it. -/
structure DomNode extends MediaNode where
  nestedMedia : Option MediaNode := none
deriving DecidableEq, Repr

/-- A selection element object (raw host payload item or normalized
descriptor; JS uses the same dynamic shape for both).  `domNode` models
the node that `resolveDomNode` resolves for this object from its
candidate fields / selector / id — the lookup itself is
document-dependent, so the environment supplies its result. -/
structure Elem where
  id : Option String := none
  elementId : Option String := none
  label : Option String := none
  name : Option String := none
  selector : Option String := none
  tagName : Option String := none
  widths : Option WidthsObj := none
  computedWidths : Option CompWidthsObj := none
  computedWidthDesktop : JsVal := .absent
  computedWidthMobile : JsVal := .absent
  devMock : Bool := false
  reason : Option String := none
  domNode : Option DomNode := none
deriving DecidableEq, Repr

/-- A message payload object: its element-like fields (`toElem`, used
when the whole object falls back to being a single candidate) plus the
wrapper fields `normalizeSelectionState` / `normalizeIncomingSelection`
probe.  An `Option (List (Option Elem))` field is `some` exactly when
the JS field holds an array (whose entries may be null). -/
structure PayloadObj extends Elem where
  selectedElements : Option (List (Option Elem)) := none
  elements : Option (List (Option Elem)) := none
  selection : Option (List (Option Elem)) := none
  selectedElement : Option Elem := none
  element : Option Elem := none
  primary : Option Elem := none
  devMockReason : Option String := none
deriving DecidableEq, Repr

/-- A raw selection payload: null/undefined, an array, or an object. -/
inductive Payload where
  | nullP
  | arr (items : List (Option Elem))
  | obj (o : PayloadObj)
deriving DecidableEq, Repr

/-- The canonical broadcast `SelectionState`. -/
structure SelState where
  elements : List (Option Elem) := []
  primary : Option Elem := none
  devMock : Bool := false
  reason : Option String := none
  devMockReason : Option String := none
deriving DecidableEq, Repr

/-- JS `String.prototype.toLowerCase` (ASCII range), computed over the
character lists so the kernel can evaluate it. -/
def jsLowerChar (c : Char) : Char :=
  if 'A' ≤ c && c ≤ 'Z' then Char.ofNat (c.toNat + 32) else c

/-- See `jsLowerChar`. -/
def jsToLower (s : String) : String := ⟨s.data.map jsLowerChar⟩

/-- `MEDIA_TAGS` (bridge). -/
def MEDIA_TAGS : List String := ["img", "picture", "video", "canvas", "figure", "svg"]

/-- `RUNTIME_WAIT_TIMEOUT` (bridge): bounded host-discovery wait, ms. -/
def RUNTIME_WAIT_TIMEOUT : ℕ := 5000

/-- `SELECTION_POLL_INTERVAL` (bridge): polling interval, ms. -/
def SELECTION_POLL_INTERVAL : ℕ := 1500

/-- `isImageLikeElement` (bridge). -/
def isImageLikeElement (n : MediaNode) : Bool :=
  if !n.isElement then false
  else
    match n.tagName with
    | none => false
    | some t => MEDIA_TAGS.contains (jsToLower t) || n.hasBgImage

/-- `findVisualMediaNode` (bridge): the node itself when media-like or
background-imaged, else its first nested media descendant, else itself. -/
def findVisualMediaNode : Option DomNode → Option MediaNode
  | none => none
  | some n =>
    if !n.isElement then none
    else if isImageLikeElement n.toMediaNode then some n.toMediaNode
    else if n.hasBgImage then some n.toMediaNode
    else
      match n.nestedMedia with
      | some m => some m
      | none => some n.toMediaNode

/-- `computeBoundingWidths` (bridge): round the bounding-rect width and
record the same scalar in both slots (the breakpoint only picks the
assignment order, which is observationally identical). -/
def computeBoundingWidths (device : Device) : Option MediaNode → CompWidthsObj
  | none => { desktop := .absent, mobile := .absent }
  | some n =>
    match toPositiveNumber n.rectWidth with
    | none => { desktop := .absent, mobile := .absent }
    | some w =>
      if w = 0 then { desktop := .absent, mobile := .absent }
      else
        match device with
        | .mobile => { mobile := .num (.val w), desktop := .num (.val w) }
        | _ => { desktop := .num (.val w), mobile := .num (.val w) }

/-- One key of `sanitizeWidths`: `const value = toPositiveNumber(widths[key]);
if (value) sanitized[key] = value` — the entry survives only when the
rounded value is truthy. -/
def sanitizeKey (v : JsVal) : JsVal :=
  match toPositiveNumber v with
  | some m => if m = 0 then .absent else .num (.val m)
  | none => .absent

/-- `sanitizeWidths` (bridge): keep only the breakpoint entries whose
`toPositiveNumber` image is truthy; `null` when nothing survives. -/
def sanitizeWidths : Option WidthsObj → Option WidthsObj
  | none => none
  | some ws =>
    let s : WidthsObj :=
      { desktop := sanitizeKey ws.desktop
        tablet := sanitizeKey ws.tablet
        mobile := sanitizeKey ws.mobile }
    if s.desktop = .absent && s.tablet = .absent && s.mobile = .absent then none else some s

/-- `buildSelector` (bridge). -/
def buildSelector (node : Option MediaNode) (fallbackSelector : Option String) : Option String :=
  match fallbackSelector with
  | some s => some s
  | none =>
    match node with
    | none => none
    | some n =>
      if !n.isElement then none
      else
        match n.id with
        | some i => some ("#" ++ i)
        | none =>
          if n.classes.length != 0 then
            some (jsToLower (n.tagName.getD "") ++ "." ++ String.intercalate "." n.classes)
          else n.tagName.map jsToLower

/-- `createSerializableSelection` (bridge): the whitelisted base
descriptor; carries sanitized widths only, never the raw object or node. -/
def createSerializableSelection (source : Elem) : Elem :=
  { id := source.id <|> source.elementId
    elementId := source.elementId <|> source.id
    label := source.label <|> source.name
    selector := source.selector
    tagName := source.tagName
    widths := sanitizeWidths source.widths }

/-- `normalizeSelection` (bridge): resolve the node, find the visual
media node, measure it, and assemble the sanitized descriptor. -/
def normalizeSelection (device : Device) : Option Elem → Option Elem
  | none => none
  | some e =>
    let safeBase := createSerializableSelection e
    let domNode := e.domNode
    let visualNode := findVisualMediaNode domNode
    let measurementNode := visualNode <|> domNode.map DomNode.toMediaNode
    let computedWidths := computeBoundingWidths device measurementNode
    let vd := visualNode <|> domNode.map DomNode.toMediaNode
    let tagName := (vd.bind MediaNode.tagName).map jsToLower <|> safeBase.tagName
    let id := (vd.bind MediaNode.id) <|> safeBase.id
    let selector := buildSelector vd safeBase.selector
    some { safeBase with
            tagName := tagName
            id := id
            selector := selector
            computedWidths := some computedWidths
            computedWidthDesktop := computedWidths.desktop
            computedWidthMobile := computedWidths.mobile }

/-- `extractSelectionArray` (bridge). -/
def extractSelectionArray : Payload → List (Option Elem)
  | .nullP => []
  | .arr items => items
  | .obj o =>
    match o.selectedElements with
    | some l => l
    | none =>
      match o.elements with
      | some l => l
      | none =>
        match o.selection with
        | some l => l
        | none =>
          match o.selectedElement with
          | some e => [some e]
          | none =>
            match o.element with
            | some e => [some e]
            | none => [some o.toElem]

/-- `createEmptySelectionState` (bridge). -/
def createEmptySelectionState : SelState :=
  { elements := [], primary := none, devMock := false }

/-- The fixed dev-mock descriptor (bridge `createDevSelectionState`). -/
def mockElement (reason : Option String) : Elem :=
  { id := some "riaa-dev-mock"
    label := some "DEV Mock Image"
    tagName := some "img"
    selector := some ".riaa-dev-mock"
    widths := some { desktop := .num (.val 640), mobile := .num (.val 320) }
    computedWidths := some { desktop := .num (.val 640), mobile := .num (.val 320) }
    computedWidthDesktop := .num (.val 640)
    computedWidthMobile := .num (.val 320)
    devMock := true
    reason := reason }

/-- `createDevSelectionState` (bridge). -/
def createDevSelectionState (reason : Option String) : SelState :=
  { elements := [some (mockElement reason)]
    primary := some (mockElement reason)
    devMock := true
    reason := reason }

/-- `normalizeSelectionState` (bridge): devMock payloads pass their
`elements`/`primary` through unvalidated; otherwise candidates are
extracted, normalized and the first survivor becomes `primary`. -/
def normalizeSelectionState (device : Device) (payload : Payload) : SelState :=
  match payload with
  | .obj o =>
    if o.devMock then
      { elements := o.elements.getD [], primary := o.primary, devMock := true }
    else
      let selectionArray := extractSelectionArray payload
      if selectionArray.isEmpty then createEmptySelectionState
      else
        let normalizedElements := selectionArray.filterMap (normalizeSelection device)
        if normalizedElements.isEmpty then createEmptySelectionState
        else
          { elements := normalizedElements.map some
            primary := normalizedElements.head?
            devMock := false }
  | _ =>
    let selectionArray := extractSelectionArray payload
    if selectionArray.isEmpty then createEmptySelectionState
    else
      let normalizedElements := selectionArray.filterMap (normalizeSelection device)
      if normalizedElements.isEmpty then createEmptySelectionState
      else
        { elements := normalizedElements.map some
          primary := normalizedElements.head?
          devMock := false }

/-- The `{desktop, mobile}` pair built by `deriveMeasuredWidths`
(each slot a number or `null`). -/
structure MeasuredWidths where
  desktop : Option ℚ := none
  mobile : Option ℚ := none
deriving DecidableEq, Repr

/-- Lift a number-or-null JS value back into `JsVal` (used where the
panel feeds an already-derived width slot to `toFiniteNumber`). -/
def jsOfOptQ : Option ℚ → JsVal
  | none => .absent
  | some q => .num (.val q)

/-- `deriveMeasuredWidths` (panel): host-supplied `widths` first (when
the object is present with a truthy desktop or mobile entry), otherwise
the flattened/nested computed widths; `null` when the computed path
yields nothing. -/
def deriveMeasuredWidths : Option Elem → Option MeasuredWidths
  | none => none
  | some selection =>
    match selection.widths with
    | some w =>
      if w.desktop.truthy || w.mobile.truthy then
        some { desktop := toFiniteNumber w.desktop <|> toFiniteNumber w.mobile
               mobile := toFiniteNumber w.mobile <|> toFiniteNumber w.desktop }
      else derivedComputed selection
    | none => derivedComputed selection
where
  /-- The computed-widths branch of `deriveMeasuredWidths`. -/
  derivedComputed (selection : Elem) : Option MeasuredWidths :=
    let computedDesktop :=
      toFiniteNumber selection.computedWidthDesktop <|>
        toFiniteNumber ((selection.computedWidths.map CompWidthsObj.desktop).getD .absent)
    let computedMobile :=
      toFiniteNumber selection.computedWidthMobile <|>
        toFiniteNumber ((selection.computedWidths.map CompWidthsObj.mobile).getD .absent)
    if computedDesktop.isNone && computedMobile.isNone then none
    else some { desktop := computedDesktop <|> computedMobile, mobile := computedMobile <|> computedDesktop }

/-- `getWidthSource` (panel). -/
def getWidthSource (selection : Option Elem) : String :=
  match selection with
  | some s =>
    if s.widths.isSome then "designer"
    else if s.computedWidths.isSome then "computed"
    else "unknown"
  | none => "unknown"

/-- The panel's normalized incoming selection state
(`normalizeIncomingSelection` result; its `elements` are Boolean-filtered,
hence never null). -/
structure PanelSel where
  elements : List Elem := []
  primary : Option Elem := none
  devMock : Bool := false
  reason : Option String := none
deriving DecidableEq, Repr

/-- View an element object as a payload (used when
`normalizeIncomingSelection` recurses into `payload.element`). -/
def elemAsPayload (e : Elem) : Payload := .obj { toElem := e }

/-- Recursion measure for `normalizeIncoming`: the `element` branch
recurses once into an object without an `element` field. -/
def Payload.elemDepth : Payload → ℕ
  | .obj o => if o.element.isSome then 1 else 0
  | _ => 0

/-- `normalizeIncomingSelection` (panel), on a non-null payload. -/
def normalizeIncoming (p : Payload) : Option PanelSel :=
  match p with
  | .nullP => none
  | .arr items =>
    some { elements := items.reduceOption
           primary := items.reduceOption.head?
           devMock := items.any (fun it => (it.map Elem.devMock).getD false)
           reason := none }
  | .obj o =>
    if o.elements.isSome && o.primary.isSome then
      let elements := (o.elements.getD []).reduceOption
      let primary := o.primary
      some { elements := elements
             primary := primary
             devMock := o.devMock || (primary.map Elem.devMock).getD false
             reason := o.reason <|> o.devMockReason <|> primary.bind Elem.reason }
    else
      match h : o.element with
      | some e => normalizeIncoming (elemAsPayload e)
      | none =>
        let element := o.primary.getD o.toElem
        some { elements := [element]
               primary := some element
               devMock := element.devMock || o.devMock
               reason := o.reason <|> o.devMockReason <|> element.reason }
termination_by p.elemDepth
decreasing_by simp [Payload.elemDepth, elemAsPayload, h]

/-- `normalizeIncomingSelection` (panel): `null` payloads normalize to
no state. -/
def normalizeIncomingSelection : Option Payload → Option PanelSel
  | none => none
  | some p => normalizeIncoming p

/-- A recommendation-service response body (all fields optional). -/
structure Recs where
  universalUploadSize : JsVal := .absent
  desktopRenderSize : JsVal := .absent
  mobileRenderSize : JsVal := .absent
  explanation : Option String := none
deriving DecidableEq, Repr

/-- `formatPixelValue` (panel): finite numbers render rounded with a
`px` suffix, everything else as a placeholder. -/
def formatPixelValue : JsVal → String
  | .num (.val q) => toString (jsRound q) ++ "px"
  | _ => "--"

/-- The texts written by `renderResults`. -/
structure RenderOut where
  universalText : String
  desktopText : String
  mobileText : String
  explanationText : String
deriving DecidableEq, Repr

/-- JS truthiness of a number-or-null slot. -/
def truthyOptQ : Option ℚ → Bool
  | none => false
  | some q => q != 0

/-- `renderResults` (panel): each figure prefers the backend field and
falls back to the measured widths; the universal fallback doubles the
desktop measurement (else the mobile one). -/
def renderResults (recommendations : Option Recs) (measuredWidths : Option MeasuredWidths) : RenderOut :=
  let desktopMeasured :=
    toFiniteNumber (jsOfOptQ ((measuredWidths.map MeasuredWidths.desktop).getD none)) <|>
      toFiniteNumber (jsOfOptQ ((measuredWidths.map MeasuredWidths.mobile).getD none))
  let mobileMeasured :=
    toFiniteNumber (jsOfOptQ ((measuredWidths.map MeasuredWidths.mobile).getD none)) <|> desktopMeasured
  let universalFallback : Option ℚ :=
    if truthyOptQ desktopMeasured then desktopMeasured.map (· * 2)
    else if truthyOptQ mobileMeasured then mobileMeasured.map (· * 2)
    else none
  let pick : JsVal → Option ℚ → JsVal := fun field fb =>
    if field.isNullish then jsOfOptQ fb else field
  let universal := pick ((recommendations.map Recs.universalUploadSize).getD .absent) universalFallback
  let desktop := pick ((recommendations.map Recs.desktopRenderSize).getD .absent) desktopMeasured
  let mobile := pick ((recommendations.map Recs.mobileRenderSize).getD .absent) mobileMeasured
  let explanation :=
    ((recommendations.bind Recs.explanation)).getD
      "We doubled the largest rendered width to create a single upload that remains sharp across all breakpoints."
  { universalText := formatPixelValue universal
    desktopText := formatPixelValue desktop
    mobileText := formatPixelValue mobile
    explanationText := explanation }

/-- `buildMockRecommendations` (panel, dev-only offline fallback). -/
def buildMockRecommendations (measuredWidths : Option MeasuredWidths) : Recs :=
  let desktopMeasured :=
    (toFiniteNumber (jsOfOptQ ((measuredWidths.map MeasuredWidths.desktop).getD none))).getD 640
  let mobileMeasured :=
    (toFiniteNumber (jsOfOptQ ((measuredWidths.map MeasuredWidths.mobile).getD none))).getD
      (jsRound (desktopMeasured * (6 / 10)) : ℤ)
  let universal := jsRound (max desktopMeasured mobileMeasured * 2)
  { universalUploadSize := .num (.val universal)
    desktopRenderSize := .num (.val desktopMeasured)
    mobileRenderSize := .num (.val mobileMeasured)
    explanation := some "DEV mock response: doubled the largest measured width to simulate the AI backend while offline." }

/-- An origin, modelled by its parse: scheme and hostname, plus whether
`new URL(origin)` succeeds on it. -/
structure Origin where
  host : String
  scheme : String := "https"
  valid : Bool := true
deriving DecidableEq, Repr

/-- A browsing-context window reference; `canPost` models
`typeof w.postMessage === 'function'`.  Equality is JS reference
equality. -/
structure Window where
  id : ℕ
  canPost : Bool := true
deriving DecidableEq, Repr

/-- The data of a cross-frame message, by its `type` tag.  `selected`
carries the `selection` and `element` fields of an `element-selected`
message (each a payload or nullish). -/
inductive MsgData where
  | contextReady
  | subscribe
  | request
  | panelResize
  | selected (selection : Option Payload) (element : Option Payload)
  | other
deriving DecidableEq, Repr

/-- A received message event: its origin, source window and data.
`dataOrigin` models the `event.data?.origin` field the panel falls back
to. -/
structure MsgEvent where
  origin : Option Origin := none
  source : Option Window := none
  data : MsgData := .other
  dataOrigin : Option Origin := none
deriving DecidableEq, Repr

/-- JS `String.prototype.endsWith`, computed over the character lists. -/
def jsEndsWith (s post : String) : Bool :=
  let n := s.data.length
  let m := post.data.length
  decide (m ≤ n) && s.data.drop (n - m) == post.data

/-- `PANEL_HOST_SUFFIXES` (bridge). -/
def PANEL_HOST_SUFFIXES : List String := ["website-files.com", "webflow-ext.com"]

/-- `isAllowedPanelOrigin` (bridge): anything in dev; otherwise the
script origin or a hostname equal to / under one of the fixed host
domains. -/
def isAllowedPanelOrigin (dev : Bool) (scriptOrigin : Option Origin) (origin : Option Origin) : Bool :=
  match origin with
  | none => false
  | some o =>
    if dev then true
    else if scriptOrigin.isSome && scriptOrigin = some o then true
    else if !o.valid then false
    else PANEL_HOST_SUFFIXES.any fun sfx => o.host == sfx || jsEndsWith o.host ("." ++ sfx)

/-- The bridge's origin/window trust cell
(`trustedPanelOrigin` / `panelOriginConfirmed` / `trustedPanelWindow`). -/
structure BridgeTrust where
  trustedPanelOrigin : Option Origin := none
  panelOriginConfirmed : Bool := false
  trustedPanelWindow : Option Window := none
deriving DecidableEq, Repr

/-- The bridge trust cell as initialized at script load:
`trustedPanelOrigin = scriptOrigin || null`,
`panelOriginConfirmed = Boolean(trustedPanelOrigin)`. -/
def initBridgeTrust (scriptOrigin : Option Origin) : BridgeTrust :=
  { trustedPanelOrigin := scriptOrigin
    panelOriginConfirmed := scriptOrigin.isSome
    trustedPanelWindow := none }

/-- `isTrustedPanelMessage` (bridge): validates the event origin, pins
origin and sender window on first acceptance, and rejects mismatches;
returns the updated trust cell alongside the verdict. -/
def isTrustedPanelMessage (dev : Bool) (scriptOrigin : Option Origin) (event : MsgEvent)
    (t : BridgeTrust) : BridgeTrust × Bool :=
  match event.origin with
  | none => (t, false)
  | some origin =>
    if !isAllowedPanelOrigin dev scriptOrigin (some origin) then (t, false)
    else
      let t :=
        if !t.panelOriginConfirmed then
          { t with trustedPanelOrigin := some origin, panelOriginConfirmed := true }
        else t
      if t.trustedPanelOrigin.isSome && t.trustedPanelOrigin != some origin then (t, false)
      else
        let t :=
          if t.trustedPanelWindow.isNone && (event.source.map Window.canPost).getD false then
            { t with trustedPanelWindow := event.source }
          else t
        if t.trustedPanelWindow.isSome && event.source.isSome && event.source != t.trustedPanelWindow then
          (t, false)
        else (t, true)

/-- Association-list update (models `WeakMap.set`). -/
def assocSet (l : List (Window × Option Origin)) (w : Window) (o : Option Origin) :
    List (Window × Option Origin) :=
  match l with
  | [] => [(w, o)]
  | (w0, o0) :: rest => if w0 = w then (w, o) :: rest else (w0, o0) :: assocSet rest w o

/-- Association-list lookup (models `WeakMap.get`). -/
def assocGet (l : List (Window × Option Origin)) (w : Window) : Option (Option Origin) :=
  match l with
  | [] => none
  | (w0, o0) :: rest => if w0 = w then some o0 else assocGet rest w

/-- The bridge's process-wide mutable state: trust cell, subscriber set
and origin map, latest broadcast state, and the dev-mock /
DesignerScript flags. -/
structure BridgeState where
  trust : BridgeTrust := {}
  subscribers : List Window := []
  subscriberOrigins : List (Window × Option Origin) := []
  latestSelectionState : SelState := createEmptySelectionState
  devMockActive : Bool := false
  designerScriptSupported : Bool := false
deriving DecidableEq, Repr

/-- The bridge state at script load. -/
def initBridgeState (scriptOrigin : Option Origin) : BridgeState :=
  { trust := initBridgeTrust scriptOrigin }

/-- `registerSubscriber` (bridge): record the sender window and its
origin, and pin the trusted window if not yet pinned. -/
def registerSubscriber (event : MsgEvent) (s : BridgeState) : BridgeState × Option Window :=
  match event.source with
  | none => (s, none)
  | some w =>
    if !w.canPost then (s, none)
    else
      ({ s with
          subscribers := if s.subscribers.contains w then s.subscribers else s.subscribers ++ [w]
          subscriberOrigins := assocSet s.subscriberOrigins w (event.origin <|> s.trust.trustedPanelOrigin)
          trust :=
            if s.trust.trustedPanelWindow.isNone then
              { s.trust with trustedPanelWindow := some w }
            else s.trust },
        some w)

/-- `postToPanel` (bridge): succeeds iff a target origin can be chosen
(the `postMessage` call itself is modelled as succeeding). -/
def postToPanelOk (s : BridgeState) (target : Window) (originOverride : Option Origin) : Bool :=
  (originOverride <|> (assocGet s.subscriberOrigins target).bind id <|> s.trust.trustedPanelOrigin).isSome

/-- `broadcastSelection` (bridge): replace the latest state and notify
every subscriber, dropping those without a recorded origin. -/
def broadcastSelection (s : BridgeState) (selectionState : SelState) : BridgeState :=
  { s with
      latestSelectionState := selectionState
      subscribers :=
        s.subscribers.filter fun w => ((assocGet s.subscriberOrigins w).bind id).isSome }

/-- `maybeActivateDevMock` (bridge): in dev, unless a mock is already
active and latest, broadcast the fixed dev selection; also returns the
broadcast payload (if any) so theorems can talk about it. -/
def maybeActivateDevMock (dev : Bool) (reason : Option String) (s : BridgeState) :
    BridgeState × Option SelState :=
  if !dev then (s, none)
  else if s.devMockActive && s.latestSelectionState.devMock then (s, none)
  else
    let payload := { createDevSelectionState reason with devMockReason := reason }
    (broadcastSelection { s with devMockActive := true } payload, some payload)

/-- A discovered host runtime, by the capabilities and results
`fetchCurrentSelection` consults.  A `…Throws` flag models the getter
call rejecting. -/
structure RuntimeApi where
  hasGetSelectedElements : Bool := false
  selectedElementsResult : Payload := .nullP
  selectedElementsThrows : Bool := false
  hasGetSelectedElement : Bool := false
  selectedElementResult : Payload := .nullP
  selectedElementThrows : Bool := false
deriving DecidableEq, Repr

/-- The `catch` branch of `fetchCurrentSelection`. -/
def fetchSelectionCatch (dev : Bool) (s : BridgeState) : BridgeState × SelState :=
  if dev then
    ((maybeActivateDevMock dev (some "runtime-error") s).1, createDevSelectionState none)
  else (s, createEmptySelectionState)

/-- `fetchCurrentSelection` (bridge): resolve the runtime, prefer the
multi-element getter, fall back to the single getter, and degrade to
the dev mock (dev) or the empty state (otherwise).  The returned pair is
(updated state, returned selection). -/
def fetchCurrentSelection (dev : Bool) (runtime : Option RuntimeApi) (device : Device)
    (s : BridgeState) : BridgeState × SelState :=
  match runtime with
  | none =>
    if dev then
      ((maybeActivateDevMock dev (some "runtime-missing") s).1, createDevSelectionState none)
    else (s, createEmptySelectionState)
  | some rt =>
    if rt.hasGetSelectedElements then
      if rt.selectedElementsThrows then fetchSelectionCatch dev s
      else
        let raw := rt.selectedElementsResult
        (s, normalizeSelectionState device (if raw = .nullP then .arr [] else raw))
    else if rt.hasGetSelectedElement then
      if rt.selectedElementThrows then fetchSelectionCatch dev s
      else (s, normalizeSelectionState device rt.selectedElementResult)
    else if dev then
      ((maybeActivateDevMock dev (some "runtime-incomplete") s).1, createDevSelectionState none)
    else (s, createEmptySelectionState)

/-- `handleSelectionChange` (bridge): normalize an event payload, clear
the dev-mock flags on a real selection, and broadcast. -/
def handleSelectionChange (device : Device) (payload : Payload) (s : BridgeState) : BridgeState :=
  let state := normalizeSelectionState device payload
  let s :=
    if !state.devMock then
      { s with devMockActive := false, designerScriptSupported := true }
    else s
  broadcastSelection s state

/-- Whether the latest state already has content
(`latest?.primary || latest?.elements?.length`). -/
def latestHasContent (st : SelState) : Bool :=
  st.primary.isSome || st.elements.length != 0

/-- `handlePanelMessage` (bridge): trust-check the event, then register
and answer subscribe/request/context-ready messages (fetching the
current selection when the latest state is empty). -/
def handlePanelMessage (dev : Bool) (scriptOrigin : Option Origin) (runtime : Option RuntimeApi)
    (device : Device) (event : MsgEvent) (s : BridgeState) : BridgeState :=
  let checked := isTrustedPanelMessage dev scriptOrigin event s.trust
  let s := { s with trust := checked.1 }
  if !checked.2 then s
  else
    match event.data with
    | .contextReady =>
      let (s, _) := registerSubscriber event s
      if !latestHasContent s.latestSelectionState then
        let (s, selection) := fetchCurrentSelection dev runtime device s
        broadcastSelection s selection
      else broadcastSelection s s.latestSelectionState
    | .panelResize => s
    | .subscribe =>
      match registerSubscriber event s with
      | (s, none) => s
      | (s, some _) =>
        if latestHasContent s.latestSelectionState then s
        else (fetchCurrentSelection dev runtime device s).1
    | .request =>
      match registerSubscriber event s with
      | (s, none) => s
      | (s, some _) =>
        if latestHasContent s.latestSelectionState then s
        else (fetchCurrentSelection dev runtime device s).1
    | _ => s

/-- `WEBFLOW_DOMAIN_SUFFIX` (panel). -/
def WEBFLOW_DOMAIN_SUFFIX : String := ".webflow.com"

/-- `isAllowedHostOrigin` (panel): anything in dev; otherwise
`webflow.com` or a subdomain of it. -/
def isAllowedHostOrigin (dev : Bool) (origin : Option Origin) : Bool :=
  match origin with
  | none => false
  | some o =>
    if dev then true
    else if !o.valid then false
    else o.host == "webflow.com" || jsEndsWith o.host WEBFLOW_DOMAIN_SUFFIX

/-- The panel's trust cell (`trustedDesignerOrigin` /
`designerOriginConfirmed` / `designerMessageWindow`). -/
structure PanelTrust where
  trustedDesignerOrigin : Option Origin := none
  designerOriginConfirmed : Bool := false
  designerMessageWindow : Option Window := none
deriving DecidableEq, Repr

/-- The panel trust cell at load: the referrer origin is kept only when
allowed; the origin is not yet confirmed; the designer window is the
parent frame (when distinct). -/
def initPanelTrust (dev : Bool) (referrerOrigin : Option Origin) (parentWindow : Option Window) :
    PanelTrust :=
  { trustedDesignerOrigin :=
      if (referrerOrigin.map fun r => isAllowedHostOrigin dev (some r)).getD false
      then referrerOrigin else none
    designerOriginConfirmed := false
    designerMessageWindow := parentWindow }

/-- `isTrustedDesignerMessage` (panel): mirror-image check, falling back
to `event.data?.origin`, pinning the first allowed origin and the sender
window. -/
def isTrustedDesignerMessage (dev : Bool) (event : MsgEvent) (t : PanelTrust) :
    PanelTrust × Bool :=
  match event.origin <|> event.dataOrigin with
  | none => (t, false)
  | some origin =>
    if !isAllowedHostOrigin dev (some origin) then (t, false)
    else
      let t :=
        if !t.designerOriginConfirmed then
          { t with trustedDesignerOrigin := some origin, designerOriginConfirmed := true }
        else t
      if t.trustedDesignerOrigin != some origin then (t, false)
      else if t.designerMessageWindow.isSome && event.source.isSome &&
          event.source != t.designerMessageWindow then (t, false)
      else
        let t :=
          if t.designerMessageWindow.isNone && (event.source.map Window.canPost).getD false then
            { t with designerMessageWindow := event.source }
          else t
        (t, true)

/-- The panel display surface: status line, results card, selection
label/debug, dev badge and analyze-button state.  The debug text is a
function of the stored selection, so the selection itself is recorded. -/
structure PanelUi where
  statusMessage : String := "Waiting for a Designer selection..."
  statusTone : String := "info"
  resultsVisible : Bool := false
  universalText : String := "--"
  desktopText : String := "--"
  mobileText : String := "--"
  explanationText : String := ""
  selectedLabelText : String := "Waiting for a Designer selection..."
  debugSelection : Option Elem := none
  devBadgeVisible : Bool := false
  devBadgeText : String := ""
  analyzeReady : Bool := false
  analyzeProcessing : Bool := false
deriving DecidableEq, Repr

/-- The panel controller's mutable state. -/
structure PanelState where
  currentSelectionState : Option PanelSel := none
  currentSelected : Option Elem := none
  devMockSelectionActive : Bool := false
  ui : PanelUi := {}
deriving DecidableEq, Repr

/-- `setStatus` (panel). -/
def setStatusUi (message tone : String) (u : PanelUi) : PanelUi :=
  { u with statusMessage := message, statusTone := tone }

/-- `hideResults` (panel). -/
def hideResultsUi (u : PanelUi) : PanelUi := { u with resultsVisible := false }

/-- The ui effect of `updateDevBadge` (panel). -/
def devBadgeUi (dev : Bool) (u : PanelUi) : PanelUi :=
  if dev then { u with devBadgeVisible := true, devBadgeText := "DEV Mock Mode Active" }
  else { u with devBadgeVisible := false }

/-- `updateDevBadge` (panel). -/
def updateDevBadge (dev : Bool) (s : PanelState) : PanelState :=
  { s with ui := devBadgeUi dev s.ui }

/-- The label text `updateSelectedLabel` renders for an element. -/
def labelForElem (sel : Elem) (st : Option PanelSel) : String :=
  let tag := jsToLower (sel.tagName.getD "element")
  let idPart := match sel.id with | some i => "#" ++ i | none => ""
  let selectionCount := (st.map fun ps => ps.elements.length).getD 0
  let suffixPart :=
    if selectionCount > 1 then " (first of " ++ toString selectionCount ++ " selected)" else ""
  tag ++ idPart ++ suffixPart

/-- The ui effect of `updateSelectionUI` (panel): set the ready flag,
then render the empty / awaiting-widths / dev-mock / ready variants. -/
def selectionUi (currentSelected : Option Elem) (currentSelectionState : Option PanelSel)
    (u : PanelUi) : PanelUi :=
  let isDevMock := (currentSelectionState.map PanelSel.devMock).getD false
  let u := { u with analyzeReady := currentSelected.isSome }
  match currentSelected with
  | none =>
    { u with
        selectedLabelText := "Waiting for a Designer selection..."
        debugSelection := none
        resultsVisible := false
        statusMessage := "Waiting for a Designer selection..."
        statusTone := "info" }
  | some sel =>
    let u := { u with
                selectedLabelText := labelForElem sel currentSelectionState
                debugSelection := some sel }
    match deriveMeasuredWidths (some sel) with
    | none =>
      setStatusUi "Waiting for rendered widths from the Designer runtime..." "warning" u
    | some _ =>
      if isDevMock then
        setStatusUi "DEV Mock Mode Active. Click Analyze to simulate results." "info"
          (hideResultsUi u)
      else if sel.widths.isSome then setStatusUi "Ready to analyze." "info" u
      else setStatusUi "Ready (using measured width from Designer viewport)." "info" u

/-- `updateSelectionUI` (panel). -/
def updateSelectionUI (s : PanelState) : PanelState :=
  { s with ui := selectionUi s.currentSelected s.currentSelectionState s.ui }

/-- `applySelectionState` (panel): normalize the incoming payload,
replace the stored state, refresh badge and selection UI. -/
def applySelectionState (dev : Bool) (payload : Option Payload) (s : PanelState) : PanelState :=
  let nextState := normalizeIncomingSelection payload
  let s := { s with
              currentSelectionState := nextState
              currentSelected := nextState.bind PanelSel.primary
              devMockSelectionActive := (nextState.map PanelSel.devMock).getD false }
  updateSelectionUI (updateDevBadge dev s)

/-- `handleSelectionMessage` (panel), on a real message event: trust
check, type check, then apply `message.selection || message.element`. -/
def panelHandleSelectionMessage (dev : Bool) (event : MsgEvent) (t : PanelTrust) (s : PanelState) :
    PanelTrust × PanelState :=
  let checked := isTrustedDesignerMessage dev event t
  if !checked.2 then (checked.1, s)
  else
    match event.data with
    | .selected selection element => (checked.1, applySelectionState dev (selection <|> element) s)
    | _ => (checked.1, s)

/-- Outcome of the `fetch` to the recommendation endpoint: a parsed 2xx
body, or a failure (network error or non-2xx). -/
inductive FetchOutcome where
  | ok (r : Recs)
  | fail
deriving DecidableEq, Repr

/-- `requestRecommendations` (panel): on failure, dev mode falls back to
the mock recommendations, production rethrows (`none`). -/
def requestRecommendationsModel (dev : Bool) (outcome : FetchOutcome)
    (widths : Option MeasuredWidths) : Option Recs :=
  match outcome with
  | .ok r => some r
  | .fail => if dev then some (buildMockRecommendations widths) else none

/-- Write `renderResults` output into the UI and reveal the card. -/
def applyRenderResults (out : RenderOut) (u : PanelUi) : PanelUi :=
  { u with
      universalText := out.universalText
      desktopText := out.desktopText
      mobileText := out.mobileText
      explanationText := out.explanationText
      resultsVisible := true }

/-- `handleAnalyzeClick` (panel): guard on a selection, derive widths
(failing fast when none), call the backend and render; the second
component records whether the network request was issued. -/
def handleAnalyzeClick (dev : Bool) (outcome : FetchOutcome) (s : PanelState) :
    PanelState × Bool :=
  match s.currentSelected with
  | none =>
    ({ s with ui := setStatusUi "Select an image in the Designer first." "warning" (hideResultsUi s.ui) }, false)
  | some sel =>
    let ui := setStatusUi "Checking selected element..." "info" { s.ui with analyzeProcessing := true }
    match deriveMeasuredWidths (some sel) with
    | none =>
      ({ s with ui :=
          { setStatusUi "Unable to determine rendered widths for the selected element." "error"
              (hideResultsUi ui) with analyzeProcessing := false } }, false)
    | some measuredWidths =>
      let ui := setStatusUi "Sending widths to AI backend..." "info" ui
      match requestRecommendationsModel dev outcome (some measuredWidths) with
      | none =>
        ({ s with ui :=
            { setStatusUi "The AI backend returned an error." "error" (hideResultsUi ui) with
                analyzeProcessing := false } }, true)
      | some recommendations =>
        let ui := applyRenderResults (renderResults (some recommendations) (some measuredWidths)) ui
        ({ s with ui := { setStatusUi "Analysis complete." "info" ui with analyzeProcessing := false } }, true)

/-- `MAX_HANDSHAKE_ATTEMPTS` (panel). -/
def MAX_HANDSHAKE_ATTEMPTS : ℕ := 30

/-- The handshake retry interval in milliseconds (the literal passed to
`setInterval` in `startHandshakeRetries`). -/
def HANDSHAKE_RETRY_INTERVAL_MS : ℕ := 1000

/-- The handshake retry loop's state: whether the interval timer is
armed, the attempt counter, the completion flag, and (for counting) how
many retry re-sends have been performed. -/
structure HandshakeState where
  timerArmed : Bool := false
  handshakeAttempts : ℕ := 0
  handshakeComplete : Bool := false
  retrySends : ℕ := 0
deriving DecidableEq, Repr

/-- `startHandshakeRetries` (panel): arm the timer unless already armed
or (non-forced) already complete; a forced start resets the counter. -/
def startHandshakeRetries (force : Bool) (s : HandshakeState) : HandshakeState :=
  if s.timerArmed then s
  else if s.handshakeComplete && !force then s
  else
    let s := if force then { s with handshakeAttempts := 0 } else s
    { s with timerArmed := true }

/-- `stopHandshakeRetries` (panel). -/
def stopHandshakeRetries (s : HandshakeState) : HandshakeState :=
  { s with timerArmed := false }

/-- Events driving the retry loop: an interval tick, a received
`element-selected` message, a refresh-button click. -/
inductive LoopEvent where
  | tick
  | selectionMsg
  | refreshClick
deriving DecidableEq, Repr

/-- One step of the retry-loop state machine.  A tick either stops the
loop (complete or attempt cap reached) or increments the counter and
re-sends the subscribe/request + context-ready messages; a selection
message completes the handshake and stops the loop
(`handleSelectionMessage`); a refresh click clears completion and
force-restarts (`refreshSelectionLabel`). -/
def handshakeStep (s : HandshakeState) (e : LoopEvent) : HandshakeState :=
  match e with
  | .tick =>
    if !s.timerArmed then s
    else if s.handshakeComplete || s.handshakeAttempts ≥ MAX_HANDSHAKE_ATTEMPTS then
      stopHandshakeRetries s
    else
      { s with
          handshakeAttempts := s.handshakeAttempts + 1
          retrySends := s.retrySends + 1 }
  | .selectionMsg => stopHandshakeRetries { s with handshakeComplete := true }
  | .refreshClick => startHandshakeRetries true { s with handshakeComplete := false }

/-- The loop state after `initPanel` ran `startHandshakeRetries()`. -/
def initHandshakeState : HandshakeState := startHandshakeRetries false {}

/-- Run the loop over an event trace. -/
def runHandshake (events : List LoopEvent) : HandshakeState :=
  events.foldl handshakeStep initHandshakeState

/-! ### Claim-support definitions -/

/-- The guard of `deriveMeasuredWidths`' host-widths branch: the
`widths` object is present with a truthy desktop or mobile entry. -/
def hostWidthsBranch (sel : Elem) : Bool :=
  match sel.widths with
  | some w => w.desktop.truthy || w.mobile.truthy
  | none => false

/-- The `computedDesktop` value of `deriveMeasuredWidths`. -/
def computedDesktopOf (sel : Elem) : Option ℚ :=
  toFiniteNumber sel.computedWidthDesktop <|>
    toFiniteNumber ((sel.computedWidths.map CompWidthsObj.desktop).getD .absent)

/-- The `computedMobile` value of `deriveMeasuredWidths`. -/
def computedMobileOf (sel : Elem) : Option ℚ :=
  toFiniteNumber sel.computedWidthMobile <|>
    toFiniteNumber ((sel.computedWidths.map CompWidthsObj.mobile).getD .absent)

/-- A width slot as carried by a broadcast descriptor is well-formed
when absent, or a positive whole number of pixels. -/
def isRoundedPositiveWidth : JsVal → Bool
  | .absent => true
  | .num (.val q) => (q.den == 1) && decide (0 < q)
  | _ => false

/-- Every width slot of a descriptor (host-supplied `widths`, nested
`computedWidths`, and the flattened duplicates) is well-formed. -/
def elemWidthsRounded (d : Elem) : Bool :=
  (match d.widths with
   | none => true
   | some w => isRoundedPositiveWidth w.desktop && isRoundedPositiveWidth w.tablet &&
       isRoundedPositiveWidth w.mobile) &&
  (match d.computedWidths with
   | none => true
   | some c => isRoundedPositiveWidth c.desktop && isRoundedPositiveWidth c.mobile) &&
  isRoundedPositiveWidth d.computedWidthDesktop && isRoundedPositiveWidth d.computedWidthMobile

/-- The SelectionState invariant of the spec: an empty `elements`
sequence has no `primary`, and a present `primary` is `elements[0]`. -/
def selStateInvariant (st : SelState) : Prop :=
  (st.elements = [] → st.primary = none) ∧
  (∀ p, st.primary = some p → st.elements.head? = some (some p))

/-- Whether a payload takes `normalizeSelectionState`'s devMock
passthrough branch. -/
def payloadDevMock : Payload → Bool
  | .obj o => o.devMock
  | _ => false

/-- The runtime configurations of claim C6: no host runtime, or one
lacking both selection getters. -/
def lacksSelectionApi : Option RuntimeApi → Bool
  | none => true
  | some rt => !rt.hasGetSelectedElements && !rt.hasGetSelectedElement

/-- The `universalUploadSize` field a response contributes
(`recommendations?.universalUploadSize`). -/
def universalFieldOf (recommendations : Option Recs) : JsVal :=
  (recommendations.map Recs.universalUploadSize).getD .absent

/-! ### Basic lemmas -/
theorem jsRound_eq_floor (q : ℚ) : jsRound q = ⌊q + 1 / 2⌋ := by
  have hden : (q.den : ℚ) ≠ 0 := by exact_mod_cast q.den_pos.ne'
  have hnum : (q.num : ℚ) = q * (q.den : ℚ) := (div_eq_iff hden).mp (Rat.num_div_den q)
  have hq : q + 1 / 2 = ((2 * q.num + (q.den : ℤ) : ℤ) : ℚ) / (((2 * q.den : ℕ) : ℕ) : ℚ) := by
    have hne : (((2 * q.den : ℕ) : ℕ) : ℚ) ≠ 0 := by positivity
    rw [eq_div_iff hne]
    push_cast
    linear_combination (-2 : ℚ) * hnum
  rw [jsRound, hq, Rat.floor_intCast_div_natCast]
  push_cast
  rfl

theorem jsRound_nonneg {q : ℚ} (hq : 0 < q) : 0 ≤ jsRound q := by
  rw [jsRound_eq_floor]
  have h2 : (0 : ℚ) ≤ q + 1 / 2 := by linarith
  exact Int.le_floor.mpr (by exact_mod_cast h2)

theorem toFiniteNumber_pos {v : JsVal} {q : ℚ} (h : toFiniteNumber v = some q) : 0 < q := by
  unfold toFiniteNumber at h
  split at h <;> simp at h <;> exact h.2 ▸ h.1

theorem toPositiveNumber_nonneg {v : JsVal} {n : ℤ} (h : toPositiveNumber v = some n) : 0 ≤ n := by
  unfold toPositiveNumber at h
  split at h <;> simp at h <;> exact h.2 ▸ jsRound_nonneg h.1


theorem orElse_eq_or {α} {a b : Option α} {x : α} (h : (a <|> b) = some x) :
    a = some x ∨ (a = none ∧ b = some x) := by
  cases a <;> simp_all

theorem orElse_isSome_iff {α} (a b : Option α) : (a <|> b).isSome = (a.isSome || b.isSome) := by
  cases a <;> simp

theorem deriveMeasuredWidths_host (sel : Elem) (w : WidthsObj) (hw : sel.widths = some w)
    (ht : (w.desktop.truthy || w.mobile.truthy) = true) :
    deriveMeasuredWidths (some sel) =
      some { desktop := toFiniteNumber w.desktop <|> toFiniteNumber w.mobile
             mobile := toFiniteNumber w.mobile <|> toFiniteNumber w.desktop } := by
  simp [deriveMeasuredWidths, hw, ht]

theorem deriveMeasuredWidths_computed (sel : Elem) (hb : hostWidthsBranch sel = false) :
    deriveMeasuredWidths (some sel) =
      (if (computedDesktopOf sel).isNone && (computedMobileOf sel).isNone then none
       else
         some { desktop := computedDesktopOf sel <|> computedMobileOf sel
                mobile := computedMobileOf sel <|> computedDesktopOf sel }) := by
  cases hws : sel.widths with
  | none =>
    simp [deriveMeasuredWidths, deriveMeasuredWidths.derivedComputed, hws,
      computedDesktopOf, computedMobileOf]
  | some w =>
    have ht : (w.desktop.truthy || w.mobile.truthy) = false := by
      simpa [hostWidthsBranch, hws] using hb
    simp [deriveMeasuredWidths, deriveMeasuredWidths.derivedComputed, hws, ht,
      computedDesktopOf, computedMobileOf]

theorem computedDesktopOf_pos {sel : Elem} {q : ℚ} (h : computedDesktopOf sel = some q) : 0 < q := by
  rcases orElse_eq_or h with h1 | ⟨_, h1⟩ <;> exact toFiniteNumber_pos h1

theorem computedMobileOf_pos {sel : Elem} {q : ℚ} (h : computedMobileOf sel = some q) : 0 < q := by
  rcases orElse_eq_or h with h1 | ⟨_, h1⟩ <;> exact toFiniteNumber_pos h1

/-- C4 (amended): host-supplied widths take priority — whenever the
`widths` object is present with a truthy desktop or mobile entry the
result is built solely from the host widths, each slot backfilled from
the other; otherwise computed widths are used, and derivation fails
(`null`) exactly when neither computed source parses to a positive
finite number.  (As the counterexample shows, the host-widths branch can
also succeed with both slots empty, and a present-but-unusable computed
entry still fails, so failure is not equivalent to "no width present"
as originally claimed.) -/
theorem C4_widthDerivationPrecedence :
    (∀ (sel : Elem) (w : WidthsObj), sel.widths = some w →
        (w.desktop.truthy || w.mobile.truthy) = true →
        deriveMeasuredWidths (some sel) =
          some { desktop := toFiniteNumber w.desktop <|> toFiniteNumber w.mobile
                 mobile := toFiniteNumber w.mobile <|> toFiniteNumber w.desktop }) ∧
    (∀ sel : Elem, hostWidthsBranch sel = false →
        (deriveMeasuredWidths (some sel) = none ↔
          computedDesktopOf sel = none ∧ computedMobileOf sel = none)) ∧
    deriveMeasuredWidths none = none := by
  refine ⟨deriveMeasuredWidths_host, fun sel hb => ?_, rfl⟩
  rw [deriveMeasuredWidths_computed sel hb]
  constructor
  · intro h
    split at h
    · rename_i hcond
      simp only [Bool.and_eq_true, Option.isNone_iff_eq_none] at hcond
      exact hcond
    · exact absurd h (by simp)
  · rintro ⟨h1, h2⟩
    simp [h1, h2]

/-- C4 witness: a host `widths` object `{desktop: 640}` wins outright
and backfills the mobile slot. -/
theorem C4_widthDerivationPrecedence_witness :
    deriveMeasuredWidths (some { widths := some { desktop := .num (.val 640) } }) =
      some { desktop := some 640, mobile := some 640 } := by
  have h := C4_widthDerivationPrecedence.1
    { widths := some { desktop := .num (.val 640) } } { desktop := .num (.val 640) } rfl (by decide)
  rw [h]
  decide

/-- C4 counterexample: the claimed equivalence "fails exactly when no
desktop/mobile width is present in either source" is false on the code.
A `widths` object whose only entry is the non-numeric string `"abc"`
(truthy, parses to NaN) makes derivation succeed with both slots empty,
although no usable width is present anywhere; and a `computedWidths`
object carrying the present (but negative) entry `-5` still makes
derivation fail. -/
theorem C4_widthDerivationPrecedence_counterexample :
    deriveMeasuredWidths (some { widths := some { desktop := .str true .nan } }) =
      some { desktop := none, mobile := none } ∧
    deriveMeasuredWidths (some { computedWidths := some { desktop := .num (.val (-5)) } }) = none ∧
    ({ computedWidths := some { desktop := .num (.val (-5)) } } : Elem).computedWidths ≠ none := by
  refine ⟨by decide, by decide, by decide⟩

/-- C10 (amended): a non-null derivation with at least one populated
slot has both slots populated with positive finite numbers (each
backfilled from the other); however — as the counterexample shows — the
host-widths branch can return a non-null result whose two slots are both
`null`, so "non-null implies both positive" does not hold unconditionally. -/
theorem C10_derivedWidthsBothPositive :
    ∀ (sel : Elem) (r : MeasuredWidths), deriveMeasuredWidths (some sel) = some r →
      (r.desktop.isSome || r.mobile.isSome) = true →
      ∃ qd qm : ℚ, r.desktop = some qd ∧ r.mobile = some qm ∧ 0 < qd ∧ 0 < qm := by
  intro sel r hr hsome
  by_cases hb : hostWidthsBranch sel = true
  · obtain ⟨w, hw, ht⟩ : ∃ w, sel.widths = some w ∧ (w.desktop.truthy || w.mobile.truthy) = true := by
      unfold hostWidthsBranch at hb
      split at hb
      · exact ⟨_, by assumption, hb⟩
      · exact absurd hb (by simp)
    rw [deriveMeasuredWidths_host sel w hw ht] at hr
    obtain rfl : r = _ := (Option.some_inj.mp hr).symm
    simp only [orElse_isSome_iff] at hsome
    rcases hd : toFiniteNumber w.desktop with _ | qd
    · rcases hm : toFiniteNumber w.mobile with _ | qm
      · simp [hd, hm] at hsome
      · exact ⟨qm, qm, by simp [hd, hm], by simp [hd, hm], toFiniteNumber_pos hm,
          toFiniteNumber_pos hm⟩
    · rcases hm : toFiniteNumber w.mobile with _ | qm
      · exact ⟨qd, qd, by simp [hd, hm], by simp [hd, hm], toFiniteNumber_pos hd,
          toFiniteNumber_pos hd⟩
      · exact ⟨qd, qm, by simp [hd, hm], by simp [hd, hm], toFiniteNumber_pos hd,
          toFiniteNumber_pos hm⟩
  · rw [deriveMeasuredWidths_computed sel (by simpa using hb)] at hr
    split at hr
    · exact absurd hr (by simp)
    · rename_i hcond
      obtain rfl : r = _ := (Option.some_inj.mp hr).symm
      rcases hd : computedDesktopOf sel with _ | qd
      · rcases hm : computedMobileOf sel with _ | qm
        · simp [hd, hm] at hcond
        · exact ⟨qm, qm, by simp [hd, hm], by simp [hd, hm], computedMobileOf_pos hm,
            computedMobileOf_pos hm⟩
      · rcases hm : computedMobileOf sel with _ | qm
        · exact ⟨qd, qd, by simp [hd, hm], by simp [hd, hm], computedDesktopOf_pos hd,
            computedDesktopOf_pos hd⟩
        · exact ⟨qd, qm, by simp [hd, hm], by simp [hd, hm], computedDesktopOf_pos hd,
            computedMobileOf_pos hm⟩

/-- C10 witness: computed widths `{desktop: 480}` derive to a fully
positive pair, mobile backfilled from desktop. -/
theorem C10_derivedWidthsBothPositive_witness :
    ∃ qd qm : ℚ,
      ({ desktop := some 480, mobile := some 480 } : MeasuredWidths).desktop = some qd ∧
      ({ desktop := some 480, mobile := some 480 } : MeasuredWidths).mobile = some qm ∧
      0 < qd ∧ 0 < qm :=
  C10_derivedWidthsBothPositive
    { computedWidths := some { desktop := .num (.val 480) } }
    { desktop := some 480, mobile := some 480 } (by decide) (by decide)

/-- C10 counterexample: the claim as stated is false — a host `widths`
object whose only entry is the truthy but negative number `-3` yields a
*successful* (non-null) derivation whose desktop and mobile slots are
both `null`, not positive finite numbers. -/
theorem C10_derivedWidthsBothPositive_counterexample :
    deriveMeasuredWidths (some { widths := some { mobile := .num (.val (-3)) } }) =
      some { desktop := none, mobile := none } := by
  decide

/-- C5: triggering analysis on a current selection carrying neither a
`widths` object nor computed widths sets the descriptive blocking error
status (tone `error`), hides the results card, restores the idle
(non-processing) display state, leaves the stored selection untouched,
and issues no network request to the recommendation endpoint. -/
theorem C5_analyzeWithoutWidthsBlocks (dev : Bool) (outcome : FetchOutcome) (s : PanelState)
    (sel : Elem) (hsel : s.currentSelected = some sel)
    (hw : sel.widths = none) (hcw : sel.computedWidths = none)
    (hfd : sel.computedWidthDesktop = .absent) (hfm : sel.computedWidthMobile = .absent) :
    (handleAnalyzeClick dev outcome s).2 = false ∧
    (handleAnalyzeClick dev outcome s).1.ui.statusMessage =
      "Unable to determine rendered widths for the selected element." ∧
    (handleAnalyzeClick dev outcome s).1.ui.statusTone = "error" ∧
    (handleAnalyzeClick dev outcome s).1.ui.resultsVisible = false ∧
    (handleAnalyzeClick dev outcome s).1.ui.analyzeProcessing = false ∧
    (handleAnalyzeClick dev outcome s).1.currentSelected = s.currentSelected ∧
    (handleAnalyzeClick dev outcome s).1.currentSelectionState = s.currentSelectionState := by
  have hderive : deriveMeasuredWidths (some sel) = none := by
    rw [deriveMeasuredWidths_computed sel (by simp [hostWidthsBranch, hw])]
    simp [computedDesktopOf, computedMobileOf, hcw, hfd, hfm, toFiniteNumber]
  simp [handleAnalyzeClick, hsel, hderive, setStatusUi, hideResultsUi]

/-- C5 witness: a bare `img` descriptor with no width information
blocks analysis without a network call. -/
theorem C5_analyzeWithoutWidthsBlocks_witness :
    (handleAnalyzeClick false .fail
        { currentSelected := some { tagName := some "img" } }).2 = false ∧
    (handleAnalyzeClick false .fail
        { currentSelected := some { tagName := some "img" } }).1.ui.statusMessage =
      "Unable to determine rendered widths for the selected element." ∧
    (handleAnalyzeClick false .fail
        { currentSelected := some { tagName := some "img" } }).1.ui.statusTone = "error" ∧
    (handleAnalyzeClick false .fail
        { currentSelected := some { tagName := some "img" } }).1.ui.resultsVisible = false ∧
    (handleAnalyzeClick false .fail
        { currentSelected := some { tagName := some "img" } }).1.ui.analyzeProcessing = false ∧
    (handleAnalyzeClick false .fail
        { currentSelected := some { tagName := some "img" } }).1.currentSelected =
      ({ currentSelected := some { tagName := some "img" } } : PanelState).currentSelected ∧
    (handleAnalyzeClick false .fail
        { currentSelected := some { tagName := some "img" } }).1.currentSelectionState =
      ({ currentSelected := some { tagName := some "img" } } : PanelState).currentSelectionState :=
  C5_analyzeWithoutWidthsBlocks false .fail _ { tagName := some "img" } rfl rfl rfl rfl rfl

theorem jsRound_intCast (n : ℤ) : jsRound (n : ℚ) = n := by
  rw [jsRound_eq_floor, Int.floor_int_add]
  norm_num

theorem renderResults_universal_desktop (recommendations : Option Recs) (mw : MeasuredWidths)
    (qd : ℚ) (uf : universalFieldOf recommendations = .absent)
    (hd : mw.desktop = some qd) (hq : 0 < qd) :
    (renderResults recommendations (some mw)).universalText =
      toString (jsRound (qd * 2)) ++ "px" := by
  have hne : (qd != 0) = true := by simpa using hq.ne'
  have huf : (recommendations.map Recs.universalUploadSize).getD .absent = .absent := uf
  simp [renderResults, jsOfOptQ, truthyOptQ, formatPixelValue, hd, hq, hne, huf,
    toFiniteNumber, JsVal.isNullish]

theorem renderResults_universal_mobile (recommendations : Option Recs) (mw : MeasuredWidths)
    (qm : ℚ) (uf : universalFieldOf recommendations = .absent)
    (hd : mw.desktop = none) (hm : mw.mobile = some qm) (hq : 0 < qm) :
    (renderResults recommendations (some mw)).universalText =
      toString (jsRound (qm * 2)) ++ "px" := by
  have hne : (qm != 0) = true := by simpa using hq.ne'
  have huf : (recommendations.map Recs.universalUploadSize).getD .absent = .absent := uf
  simp [renderResults, jsOfOptQ, truthyOptQ, formatPixelValue, hd, hm, hq, hne, huf,
    toFiniteNumber, JsVal.isNullish]

/-- C3 (amended): when the backend response lacks `universalUploadSize`,
the rendered universal size is twice the *desktop* measured width when
one is present (else twice the mobile width) — which coincides with
"twice the larger" only when the desktop width is the larger of the two.
In particular, for measured widths `{desktop: 640, mobile: 320}` with no
backend override the rendered universal size is `1280px`. -/
theorem C3_universalFallbackDoublesDesktop :
    (∀ (recommendations : Option Recs) (mw : MeasuredWidths) (qd : ℚ),
        universalFieldOf recommendations = .absent → mw.desktop = some qd → 0 < qd →
        (renderResults recommendations (some mw)).universalText =
          toString (jsRound (qd * 2)) ++ "px") ∧
    (∀ (recommendations : Option Recs) (mw : MeasuredWidths) (qm : ℚ),
        universalFieldOf recommendations = .absent → mw.desktop = none → mw.mobile = some qm →
        0 < qm →
        (renderResults recommendations (some mw)).universalText =
          toString (jsRound (qm * 2)) ++ "px") ∧
    (renderResults none (some { desktop := some 640, mobile := some 320 })).universalText =
      "1280px" := by
  refine ⟨renderResults_universal_desktop, renderResults_universal_mobile, ?_⟩
  rw [renderResults_universal_desktop none _ 640 rfl rfl (by norm_num)]
  have h2 : ((640 : ℚ) * 2) = ((1280 : ℤ) : ℚ) := by norm_num
  rw [h2, jsRound_intCast]
  rfl

/-- C3 witness: the desktop-doubling fallback applied at
`{desktop: 500, mobile: 200}` renders `1000px`. -/
theorem C3_universalFallbackDoublesDesktop_witness :
    (renderResults none (some { desktop := some 500, mobile := some 200 })).universalText =
      toString (jsRound ((500 : ℚ) * 2)) ++ "px" :=
  C3_universalFallbackDoublesDesktop.1 none
    { desktop := some 500, mobile := some 200 } 500 rfl rfl (by norm_num)

/-- C3 counterexample: with measured widths `{desktop: 320, mobile:
640}` (reachable from a host `widths` object with those values) and no
backend override, the rendered universal size is `640px` — twice the
desktop width — not `1280px`, twice the larger of the two.  So "twice
the larger of the two measured widths" is false on the code. -/
theorem C3_universalFallbackDoublesDesktop_counterexample :
    deriveMeasuredWidths
        (some { widths := some { desktop := .num (.val 320), mobile := .num (.val 640) } }) =
      some { desktop := some 320, mobile := some 640 } ∧
    (renderResults none (some { desktop := some 320, mobile := some 640 })).universalText =
      "640px" ∧
    "640px" ≠ "1280px" := by
  refine ⟨by decide, ?_, by decide⟩
  rw [renderResults_universal_desktop none _ 320 rfl rfl (by norm_num)]
  have h2 : ((320 : ℚ) * 2) = ((640 : ℤ) : ℚ) := by norm_num
  rw [h2, jsRound_intCast]
  rfl

theorem handshakeStep_preserves_bound (s : HandshakeState) (e : LoopEvent)
    (hne : e ≠ .refreshClick)
    (h1 : s.retrySends ≤ s.handshakeAttempts) (h2 : s.handshakeAttempts ≤ MAX_HANDSHAKE_ATTEMPTS) :
    (handshakeStep s e).retrySends ≤ (handshakeStep s e).handshakeAttempts ∧
    (handshakeStep s e).handshakeAttempts ≤ MAX_HANDSHAKE_ATTEMPTS := by
  cases e with
  | tick =>
    unfold handshakeStep
    split_ifs with ha hb
    · exact ⟨h1, h2⟩
    · exact ⟨h1, h2⟩
    · have hb2 : s.handshakeAttempts < MAX_HANDSHAKE_ATTEMPTS := by
        simp only [Bool.or_eq_true, decide_eq_true_eq, ge_iff_le, not_or, not_le] at hb
        exact hb.2
      exact ⟨Nat.succ_le_succ h1, hb2⟩
  | selectionMsg => exact ⟨h1, h2⟩
  | refreshClick => exact absurd rfl hne

theorem handshake_fold_bound (events : List LoopEvent) (s : HandshakeState)
    (hre : ∀ e ∈ events, e ≠ .refreshClick)
    (h1 : s.retrySends ≤ s.handshakeAttempts) (h2 : s.handshakeAttempts ≤ MAX_HANDSHAKE_ATTEMPTS) :
    (events.foldl handshakeStep s).retrySends ≤ (events.foldl handshakeStep s).handshakeAttempts ∧
    (events.foldl handshakeStep s).handshakeAttempts ≤ MAX_HANDSHAKE_ATTEMPTS := by
  induction events generalizing s with
  | nil => exact ⟨h1, h2⟩
  | cons e rest ih =>
    have hstep := handshakeStep_preserves_bound s e (hre e (by simp)) h1 h2
    exact ih (handshakeStep s e) (fun x hx => hre x (by simp [hx])) hstep.1 hstep.2

/-- C9 (amended): the retry loop ticks at the 1000ms interval constant,
a received selection message completes the handshake and disarms the
timer, and over any event trace containing no refresh click the loop
performs at most `MAX_HANDSHAKE_ATTEMPTS = 30` retry re-sends.  (The
refresh button force-restarts the loop with the attempt counter reset,
so a whole panel run *can* exceed 30 re-sends — see the counterexample —
which is the only correction to the claim.) -/
theorem C9_handshakeRetryCap :
    HANDSHAKE_RETRY_INTERVAL_MS = 1000 ∧
    MAX_HANDSHAKE_ATTEMPTS = 30 ∧
    (∀ s : HandshakeState, (handshakeStep s .selectionMsg).handshakeComplete = true ∧
        (handshakeStep s .selectionMsg).timerArmed = false) ∧
    (∀ events : List LoopEvent, (∀ e ∈ events, e ≠ .refreshClick) →
        (runHandshake events).retrySends ≤ MAX_HANDSHAKE_ATTEMPTS) := by
  refine ⟨rfl, rfl, fun s => ⟨rfl, rfl⟩, fun events hre => ?_⟩
  have h := handshake_fold_bound events initHandshakeState hre (by decide) (by decide)
  exact le_trans h.1 h.2

/-- C9 witness: a short refresh-free trace stays within the 30-send cap. -/
theorem C9_handshakeRetryCap_witness :
    (runHandshake [.tick, .tick, .selectionMsg, .tick]).retrySends ≤ MAX_HANDSHAKE_ATTEMPTS :=
  C9_handshakeRetryCap.2.2.2 [.tick, .tick, .selectionMsg, .tick] (by decide)

/-- C9 counterexample: "for every run of the panel the retry loop
re-sends at most 30 times" is false — after the 30-attempt cap stops the
loop, a refresh click (`refreshSelectionLabel` → forced
`startHandshakeRetries(true)`) resets the attempt counter and re-arms
the timer, so the 31st re-send happens on the next tick. -/
theorem C9_handshakeRetryCap_counterexample :
    MAX_HANDSHAKE_ATTEMPTS <
      (runHandshake (List.replicate 30 .tick ++ [.tick, .refreshClick, .tick])).retrySends := by
  decide

theorem selStateInvariant_empty : selStateInvariant createEmptySelectionState :=
  ⟨fun _ => rfl, fun p hp => by simp [createEmptySelectionState] at hp⟩

theorem selStateInvariant_ofNormalized (l : List Elem) :
    selStateInvariant { elements := l.map some, primary := l.head?, devMock := false } := by
  constructor
  · intro h
    simp only [List.map_eq_nil_iff] at h
    simp [h]
  · intro p hp
    have hp2 : l.head? = some p := hp
    simp [List.head?_map, hp2]

theorem normalizeSelectionState_invariant (device : Device) (p : Payload)
    (h : payloadDevMock p = false) : selStateInvariant (normalizeSelectionState device p) := by
  cases p with
  | nullP => exact selStateInvariant_empty
  | arr items =>
    have he : normalizeSelectionState device (.arr items) =
        (if items.isEmpty then createEmptySelectionState
         else if (items.filterMap (normalizeSelection device)).isEmpty then createEmptySelectionState
         else { elements := (items.filterMap (normalizeSelection device)).map some
                primary := (items.filterMap (normalizeSelection device)).head?
                devMock := false }) := rfl
    rw [he]
    split_ifs
    · exact selStateInvariant_empty
    · exact selStateInvariant_empty
    · exact selStateInvariant_ofNormalized _
  | obj o =>
    have ho : o.devMock = false := by simpa [payloadDevMock] using h
    have he : normalizeSelectionState device (.obj o) =
        (if (extractSelectionArray (.obj o)).isEmpty then createEmptySelectionState
         else if ((extractSelectionArray (.obj o)).filterMap (normalizeSelection device)).isEmpty
           then createEmptySelectionState
         else { elements :=
                  ((extractSelectionArray (.obj o)).filterMap (normalizeSelection device)).map some
                primary :=
                  ((extractSelectionArray (.obj o)).filterMap (normalizeSelection device)).head?
                devMock := false }) := by
      simp [normalizeSelectionState, ho]
    rw [he]
    split_ifs
    · exact selStateInvariant_empty
    · exact selStateInvariant_empty
    · exact selStateInvariant_ofNormalized _

theorem selStateInvariant_devMockState (r : Option String) :
    selStateInvariant (createDevSelectionState r) := by
  constructor
  · intro h
    simp [createDevSelectionState] at h
  · intro p hp
    simp only [createDevSelectionState, Option.some_inj] at hp
    simp [createDevSelectionState, hp]

/-- C2 (amended): the `primary = elements[0]` / "empty implies no
primary" invariant holds for every state the host normalization pipeline
builds from a payload that does not take the devMock passthrough branch,
for the internally generated dev-mock state, for the empty state, and
for the panel normalization of array payloads.  It does not hold for
`normalizeSelectionState` on arbitrary devMock-flagged payloads (nor for
panel payloads carrying both `elements` and `primary`), whose
elements/primary pair is passed through unreconciled — see the
counterexample. -/
theorem C2_primaryIsFirstElement :
    (∀ (device : Device) (p : Payload), payloadDevMock p = false →
        selStateInvariant (normalizeSelectionState device p)) ∧
    (∀ r : Option String, selStateInvariant (createDevSelectionState r)) ∧
    selStateInvariant createEmptySelectionState ∧
    (∀ (items : List (Option Elem)) (ps : PanelSel),
        normalizeIncoming (.arr items) = some ps → ps.primary = ps.elements.head?) := by
  refine ⟨normalizeSelectionState_invariant, selStateInvariant_devMockState,
    selStateInvariant_empty, fun items ps h => ?_⟩
  simp only [normalizeIncoming, Option.some_inj] at h
  subst h
  rfl

/-- C2 witness: a one-element array payload normalizes to a state
satisfying the invariant. -/
theorem C2_primaryIsFirstElement_witness :
    selStateInvariant
      (normalizeSelectionState Device.desktop (Payload.arr [some { tagName := some "img" }])) :=
  C2_primaryIsFirstElement.1 Device.desktop (Payload.arr [some { tagName := some "img" }]) rfl

/-- C2 counterexample: the claim quantifies over *any* payload, but a
devMock-flagged payload with no `elements` field and a `primary` field
normalizes to a state whose `elements` sequence is empty while `primary`
is still present — violating "an empty `elements` sequence implies
`primary` is absent". -/
theorem C2_primaryIsFirstElement_counterexample :
    (normalizeSelectionState Device.desktop
        (.obj { devMock := true, primary := some { tagName := some "div" } })).elements = [] ∧
    (normalizeSelectionState Device.desktop
        (.obj { devMock := true, primary := some { tagName := some "div" } })).primary =
      some { tagName := some "div" } := by
  exact ⟨by decide, by decide⟩

theorem isRoundedPositiveWidth_intCast {m : ℤ} (h0 : 0 ≤ m) (hne : m ≠ 0) :
    isRoundedPositiveWidth (.num (.val (m : ℚ))) = true := by
  have hpos : 0 < m := lt_of_le_of_ne h0 (Ne.symm hne)
  simp only [isRoundedPositiveWidth, Bool.and_eq_true, beq_iff_eq, decide_eq_true_eq]
  exact ⟨Rat.den_intCast m, by exact_mod_cast hpos⟩

theorem sanitizeKey_rounded (v : JsVal) : isRoundedPositiveWidth (sanitizeKey v) = true := by
  unfold sanitizeKey
  cases htp : toPositiveNumber v with
  | none => rfl
  | some m =>
    by_cases hm : m = 0
    · simp only [if_pos hm]
      rfl
    · simp only [if_neg hm]
      exact isRoundedPositiveWidth_intCast (toPositiveNumber_nonneg htp) hm

theorem sanitizeWidths_rounded (w : Option WidthsObj) (s : WidthsObj)
    (h : sanitizeWidths w = some s) :
    isRoundedPositiveWidth s.desktop = true ∧ isRoundedPositiveWidth s.tablet = true ∧
    isRoundedPositiveWidth s.mobile = true := by
  cases w with
  | none => simp [sanitizeWidths] at h
  | some ws =>
    simp only [sanitizeWidths] at h
    split at h
    · exact absurd h (by simp)
    · obtain rfl : s = _ := (Option.some_inj.mp h).symm
      exact ⟨sanitizeKey_rounded _, sanitizeKey_rounded _, sanitizeKey_rounded _⟩

theorem computeBoundingWidths_rounded (device : Device) (n : Option MediaNode) :
    isRoundedPositiveWidth (computeBoundingWidths device n).desktop = true ∧
    isRoundedPositiveWidth (computeBoundingWidths device n).mobile = true := by
  cases n with
  | none => exact ⟨rfl, rfl⟩
  | some nd =>
    simp only [computeBoundingWidths]
    cases htp : toPositiveNumber nd.rectWidth with
    | none => exact ⟨rfl, rfl⟩
    | some w =>
      by_cases hw : w = 0
      · simp only [if_pos hw]
        exact ⟨rfl, rfl⟩
      · have hok := isRoundedPositiveWidth_intCast (toPositiveNumber_nonneg htp) hw
        simp only [if_neg hw]
        cases device <;> exact ⟨hok, hok⟩

theorem elemWidthsRounded_intro (d : Elem)
    (h1 : ∀ w, d.widths = some w →
      isRoundedPositiveWidth w.desktop = true ∧ isRoundedPositiveWidth w.tablet = true ∧
        isRoundedPositiveWidth w.mobile = true)
    (h2 : ∀ c, d.computedWidths = some c →
      isRoundedPositiveWidth c.desktop = true ∧ isRoundedPositiveWidth c.mobile = true)
    (h3 : isRoundedPositiveWidth d.computedWidthDesktop = true)
    (h4 : isRoundedPositiveWidth d.computedWidthMobile = true) :
    elemWidthsRounded d = true := by
  unfold elemWidthsRounded
  cases hw : d.widths with
  | none =>
    cases hc : d.computedWidths with
    | none => simp [h3, h4]
    | some c =>
      obtain ⟨c1, c2⟩ := h2 c hc
      simp [h3, h4, c1, c2]
  | some w =>
    obtain ⟨w1, w2, w3⟩ := h1 w hw
    cases hc : d.computedWidths with
    | none => simp [h3, h4, w1, w2, w3]
    | some c =>
      obtain ⟨c1, c2⟩ := h2 c hc
      simp [h3, h4, w1, w2, w3, c1, c2]

theorem normalizeSelection_widthsRounded (device : Device) (e : Option Elem) (d : Elem)
    (h : normalizeSelection device e = some d) : elemWidthsRounded d = true := by
  cases e with
  | none => simp [normalizeSelection] at h
  | some el =>
    simp only [normalizeSelection, Option.some_inj] at h
    subst h
    have hcw := computeBoundingWidths_rounded device
      (findVisualMediaNode el.domNode <|> Option.map DomNode.toMediaNode el.domNode)
    apply elemWidthsRounded_intro
    · intro w hw
      exact sanitizeWidths_rounded el.widths w hw
    · intro c hc
      have hc2 : some (computeBoundingWidths device
          (findVisualMediaNode el.domNode <|> Option.map DomNode.toMediaNode el.domNode)) =
          some c := hc
      obtain rfl : c = _ := (Option.some_inj.mp hc2).symm
      exact hcw
    · exact hcw.1
    · exact hcw.2

/-- C7 (amended): every width value carried by a descriptor that the
host normalization pipeline (`normalizeSelection`, i.e. sanitized host
widths plus computed bounding widths) produces, and by the fixed
dev-mock descriptor, is a positive whole number of pixels or entirely
absent.  The claim's universal form over *all broadcast* descriptors is
false, because `normalizeSelectionState` passes the elements of a
devMock-flagged payload through without sanitization — see the
counterexample. -/
theorem C7_descriptorWidthsRoundedPositive :
    (∀ (device : Device) (e : Option Elem) (d : Elem),
        normalizeSelection device e = some d → elemWidthsRounded d = true) ∧
    (∀ r : Option String, elemWidthsRounded (mockElement r) = true) := by
  refine ⟨normalizeSelection_widthsRounded, fun r => ?_⟩
  rfl

/-- C7 witness: normalizing a raw element with host widths
`{desktop: 100, mobile: 320}` whose resolved node measures 641 pixels
wide yields a descriptor whose width slots are all positive integers or
absent. -/
theorem C7_descriptorWidthsRoundedPositive_witness :
    elemWidthsRounded
      { id := some "hero"
        elementId := some "hero"
        tagName := some "img"
        selector := some "img"
        widths := some { desktop := .num (.val 100), mobile := .num (.val 320) }
        computedWidths := some { desktop := .num (.val 641), mobile := .num (.val 641) }
        computedWidthDesktop := .num (.val 641)
        computedWidthMobile := .num (.val 641) } = true := by
  have h := C7_descriptorWidthsRoundedPositive.1 Device.desktop
    (some { id := some "hero"
            tagName := some "img"
            widths := some { desktop := .num (.val 100), mobile := .num (.val 320) }
            domNode := some { tagName := some "img", rectWidth := .num (.val 641) } })
    { id := some "hero"
      elementId := some "hero"
      tagName := some "img"
      selector := some "img"
      widths := some { desktop := .num (.val 100), mobile := .num (.val 320) }
      computedWidths := some { desktop := .num (.val 641), mobile := .num (.val 641) }
      computedWidthDesktop := .num (.val 641)
      computedWidthMobile := .num (.val 641) } (by decide)
  exact h

/-- C7 counterexample: a devMock-flagged host payload whose element
carries the negative width `-3` is broadcast verbatim by the bridge
(`handleSelectionChange` → `normalizeSelectionState` passthrough →
`broadcastSelection`), so the latest broadcast SelectionState carries a
descriptor with a negative width — falsifying the claim for broadcast
descriptors in general. -/
theorem C7_descriptorWidthsRoundedPositive_counterexample :
    (handleSelectionChange Device.desktop
        (.obj { devMock := true
                elements := some [some { widths := some { desktop := .num (.val (-3)) } }]
                primary := some { widths := some { desktop := .num (.val (-3)) } } })
        (initBridgeState none)).latestSelectionState.elements =
      [some { widths := some { desktop := .num (.val (-3)) } }] ∧
    elemWidthsRounded { widths := some { desktop := .num (.val (-3)) } } = false := by
  exact ⟨by decide, by decide⟩

theorem maybeActivateDevMock_noDev (reason : Option String) (s : BridgeState) :
    maybeActivateDevMock false reason s = (s, none) := rfl

theorem maybeActivateDevMock_fresh (reason : Option String) (s : BridgeState)
    (h : (s.devMockActive && s.latestSelectionState.devMock) = false) :
    (maybeActivateDevMock true reason s).1.latestSelectionState =
      { createDevSelectionState reason with devMockReason := reason } ∧
    (maybeActivateDevMock true reason s).2 =
      some { createDevSelectionState reason with devMockReason := reason } := by
  unfold maybeActivateDevMock
  rw [if_neg (by simp), if_neg (by simp [h])]
  exact ⟨rfl, rfl⟩

/-- C6: when no host runtime appears within the bounded
`RUNTIME_WAIT_TIMEOUT = 5000` ms wait — or the runtime lacks both
selection getters — a development-environment bridge broadcasts (unless
a mock is already active and latest) the fixed mock SelectionState whose
single descriptor has `tagName "img"` and `widths {desktop: 640,
mobile: 320}`; outside a development environment the fetch returns the
empty SelectionState, leaves the bridge state untouched, and
`maybeActivateDevMock` never produces a mock. -/
theorem C6_devMockOnDiscoveryFailure :
    RUNTIME_WAIT_TIMEOUT = 5000 ∧
    (∀ (device : Device) (s : BridgeState) (runtime : Option RuntimeApi),
        lacksSelectionApi runtime = true →
        (s.devMockActive && s.latestSelectionState.devMock) = false →
        ∃ reason : Option String,
          (fetchCurrentSelection true runtime device s).1.latestSelectionState =
            { createDevSelectionState reason with devMockReason := reason } ∧
          (createDevSelectionState reason).primary = some (mockElement reason) ∧
          (createDevSelectionState reason).elements = [some (mockElement reason)] ∧
          (mockElement reason).tagName = some "img" ∧
          (mockElement reason).widths =
            some { desktop := .num (.val 640), mobile := .num (.val 320) }) ∧
    (∀ (device : Device) (s : BridgeState) (runtime : Option RuntimeApi),
        lacksSelectionApi runtime = true →
        fetchCurrentSelection false runtime device s = (s, createEmptySelectionState)) ∧
    (∀ (reason : Option String) (s : BridgeState),
        maybeActivateDevMock false reason s = (s, none)) := by
  refine ⟨rfl, ?_, ?_, maybeActivateDevMock_noDev⟩
  · intro device s runtime hlacks hfresh
    cases runtime with
    | none =>
      exact ⟨some "runtime-missing",
        (maybeActivateDevMock_fresh (some "runtime-missing") s hfresh).1, rfl, rfl, rfl, rfl⟩
    | some rt =>
      have h1 : rt.hasGetSelectedElements = false := by
        simp [lacksSelectionApi] at hlacks
        exact hlacks.1
      have h2 : rt.hasGetSelectedElement = false := by
        simp [lacksSelectionApi] at hlacks
        exact hlacks.2
      refine ⟨some "runtime-incomplete", ?_, rfl, rfl, rfl, rfl⟩
      have key := (maybeActivateDevMock_fresh (some "runtime-incomplete") s hfresh).1
      simp only [fetchCurrentSelection, h1, h2]
      simpa using key
  · intro device s runtime hlacks
    cases runtime with
    | none => rfl
    | some rt =>
      have h1 : rt.hasGetSelectedElements = false := by
        simp [lacksSelectionApi] at hlacks
        exact hlacks.1
      have h2 : rt.hasGetSelectedElement = false := by
        simp [lacksSelectionApi] at hlacks
        exact hlacks.2
      simp [fetchCurrentSelection, h1, h2]

/-- C6 witness: with no runtime, the fresh dev bridge broadcasts the
fixed mock. -/
theorem C6_devMockOnDiscoveryFailure_witness :
    ∃ reason : Option String,
      (fetchCurrentSelection true none Device.desktop
          (initBridgeState none)).1.latestSelectionState =
        { createDevSelectionState reason with devMockReason := reason } ∧
      (createDevSelectionState reason).primary = some (mockElement reason) ∧
      (createDevSelectionState reason).elements = [some (mockElement reason)] ∧
      (mockElement reason).tagName = some "img" ∧
      (mockElement reason).widths =
        some { desktop := .num (.val 640), mobile := .num (.val 320) } :=
  C6_devMockOnDiscoveryFailure.2.1 Device.desktop (initBridgeState none) none rfl rfl

theorem selectionUi_badge (a : Option Elem) (b : Option PanelSel) (u : PanelUi) :
    (selectionUi a b u).devBadgeVisible = u.devBadgeVisible ∧
    (selectionUi a b u).devBadgeText = u.devBadgeText := by
  simp only [selectionUi]
  split
  · exact ⟨rfl, rfl⟩
  · split
    · exact ⟨rfl, rfl⟩
    · split_ifs <;> exact ⟨rfl, rfl⟩

theorem devBadgeUi_absorb (dev : Bool) (a : Option Elem) (b : Option PanelSel) (u : PanelUi) :
    devBadgeUi dev (selectionUi a b (devBadgeUi dev u)) = selectionUi a b (devBadgeUi dev u) := by
  obtain ⟨hv, ht⟩ := selectionUi_badge a b (devBadgeUi dev u)
  cases dev with
  | true =>
    have hv2 : (selectionUi a b (devBadgeUi true u)).devBadgeVisible = true := by
      rw [hv]; rfl
    have ht2 : (selectionUi a b (devBadgeUi true u)).devBadgeText = "DEV Mock Mode Active" := by
      rw [ht]; rfl
    calc devBadgeUi true (selectionUi a b (devBadgeUi true u))
        = { selectionUi a b (devBadgeUi true u) with
              devBadgeVisible := true, devBadgeText := "DEV Mock Mode Active" } := rfl
      _ = { selectionUi a b (devBadgeUi true u) with
              devBadgeVisible := (selectionUi a b (devBadgeUi true u)).devBadgeVisible,
              devBadgeText := (selectionUi a b (devBadgeUi true u)).devBadgeText } := by
          rw [hv2, ht2]
      _ = selectionUi a b (devBadgeUi true u) := rfl
  | false =>
    have hv2 : (selectionUi a b (devBadgeUi false u)).devBadgeVisible = false := by
      rw [hv]; rfl
    calc devBadgeUi false (selectionUi a b (devBadgeUi false u))
        = { selectionUi a b (devBadgeUi false u) with devBadgeVisible := false } := rfl
      _ = { selectionUi a b (devBadgeUi false u) with
              devBadgeVisible := (selectionUi a b (devBadgeUi false u)).devBadgeVisible } := by
          rw [hv2]
      _ = selectionUi a b (devBadgeUi false u) := rfl

theorem selectionUi_idem (a : Option Elem) (b : Option PanelSel) (u : PanelUi) :
    selectionUi a b (selectionUi a b u) = selectionUi a b u := by
  cases a with
  | none => rfl
  | some sel =>
    cases hd : deriveMeasuredWidths (some sel) with
    | none =>
      simp only [selectionUi, hd]
      rfl
    | some mw =>
      simp only [selectionUi, hd]
      split_ifs <;> rfl

/-- C8: re-applying an identical selection payload to the panel is
idempotent — the stored current selection, the derived ready/empty ui
state, and all displayed texts are unchanged by the second application. -/
theorem C8_applySelectionIdempotent (dev : Bool) (payload : Option Payload) (s : PanelState) :
    applySelectionState dev payload (applySelectionState dev payload s) =
      applySelectionState dev payload s := by
  unfold applySelectionState updateSelectionUI updateDevBadge
  simp only []
  rw [devBadgeUi_absorb, selectionUi_idem]

theorem isTrustedPanelMessage_first_pins (dev : Bool) (evt : MsgEvent) (o : Origin) (w : Window)
    (ho : evt.origin = some o) (hs : evt.source = some w) (hc : w.canPost = true)
    (hallow : isAllowedPanelOrigin dev none (some o) = true) :
    isTrustedPanelMessage dev none evt (initBridgeTrust none) =
      ({ trustedPanelOrigin := some o, panelOriginConfirmed := true,
         trustedPanelWindow := some w }, true) := by
  unfold isTrustedPanelMessage
  rw [ho]
  simp [hallow, initBridgeTrust, hs, hc]

theorem isTrustedPanelMessage_rejects_other_origin (dev : Bool) (scriptOrigin : Option Origin)
    (evt : MsgEvent) (t : BridgeTrust) (o : Origin)
    (hconf : t.panelOriginConfirmed = true) (ho : evt.origin = some o)
    (hsome : t.trustedPanelOrigin.isSome = true) (hne : t.trustedPanelOrigin ≠ some o) :
    isTrustedPanelMessage dev scriptOrigin evt t = (t, false) := by
  unfold isTrustedPanelMessage
  rw [ho]
  by_cases hallow : isAllowedPanelOrigin dev scriptOrigin (some o) = true
  · simp [hallow, hconf, hsome, hne]
  · simp [Bool.not_eq_true] at hallow
    simp [hallow]

theorem isTrustedPanelMessage_rejects_other_window (dev : Bool) (scriptOrigin : Option Origin)
    (evt : MsgEvent) (t : BridgeTrust) (o : Origin) (w w' : Window)
    (hconf : t.panelOriginConfirmed = true) (htr : t.trustedPanelOrigin = some o)
    (ho : evt.origin = some o) (hw : t.trustedPanelWindow = some w)
    (hs : evt.source = some w') (hne : w' ≠ w) :
    isTrustedPanelMessage dev scriptOrigin evt t = (t, false) := by
  unfold isTrustedPanelMessage
  rw [ho]
  by_cases hallow : isAllowedPanelOrigin dev scriptOrigin (some o) = true
  · simp [hallow, hconf, htr, hw, hs, hne]
  · simp [Bool.not_eq_true] at hallow
    simp [hallow]

theorem handlePanelMessage_rejected_unchanged (dev : Bool) (scriptOrigin : Option Origin)
    (runtime : Option RuntimeApi) (device : Device) (evt : MsgEvent) (s : BridgeState)
    (h : (isTrustedPanelMessage dev scriptOrigin evt s.trust).2 = false) :
    (handlePanelMessage dev scriptOrigin runtime device evt s).subscribers = s.subscribers ∧
    (handlePanelMessage dev scriptOrigin runtime device evt s).subscriberOrigins =
      s.subscriberOrigins ∧
    (handlePanelMessage dev scriptOrigin runtime device evt s).latestSelectionState =
      s.latestSelectionState ∧
    (handlePanelMessage dev scriptOrigin runtime device evt s).devMockActive = s.devMockActive := by
  simp [handlePanelMessage, h]

theorem panelHandleSelectionMessage_rejected_unchanged (dev : Bool) (evt : MsgEvent)
    (t : PanelTrust) (s : PanelState)
    (h : (isTrustedDesignerMessage dev evt t).2 = false) :
    (panelHandleSelectionMessage dev evt t s).2 = s := by
  simp [panelHandleSelectionMessage, h]

/-- C1 (amended): the bridge's trust pinning is first-writer-wins, but
the "writer" can be the load-time script origin, not necessarily the
first message.  (i) When the script origin is unknown at load, the first
message from an acceptable origin pins that origin and the sender
window, and is accepted.  (ii) From a pinned state, a message from a
different origin, or from a different window than the pinned one, is
rejected with the trust cell unchanged.  (iii) Handling any rejected
message leaves the bridge's subscriber set and origin map, its latest
selection state, and the dev-mock flag unchanged.  (iv) The panel's
mirror check likewise leaves the whole panel state (hence the displayed
selection) unchanged on rejection.  (v) When the script origin is known
at load, it is pre-pinned (`panelOriginConfirmed` starts true), which is
what falsifies the original "the first acceptable message pins its
origin" — see the counterexample. -/
theorem C1_firstWriterWinsTrust :
    (∀ (dev : Bool) (evt : MsgEvent) (o : Origin) (w : Window),
        evt.origin = some o → evt.source = some w → w.canPost = true →
        isAllowedPanelOrigin dev none (some o) = true →
        isTrustedPanelMessage dev none evt (initBridgeTrust none) =
          ({ trustedPanelOrigin := some o, panelOriginConfirmed := true,
             trustedPanelWindow := some w }, true)) ∧
    (∀ (dev : Bool) (scriptOrigin : Option Origin) (evt : MsgEvent) (t : BridgeTrust) (o : Origin),
        t.panelOriginConfirmed = true → evt.origin = some o →
        t.trustedPanelOrigin.isSome = true → t.trustedPanelOrigin ≠ some o →
        isTrustedPanelMessage dev scriptOrigin evt t = (t, false)) ∧
    (∀ (dev : Bool) (scriptOrigin : Option Origin) (evt : MsgEvent) (t : BridgeTrust)
        (o : Origin) (w w' : Window),
        t.panelOriginConfirmed = true → t.trustedPanelOrigin = some o → evt.origin = some o →
        t.trustedPanelWindow = some w → evt.source = some w' → w' ≠ w →
        isTrustedPanelMessage dev scriptOrigin evt t = (t, false)) ∧
    (∀ (dev : Bool) (scriptOrigin : Option Origin) (runtime : Option RuntimeApi) (device : Device)
        (evt : MsgEvent) (s : BridgeState),
        (isTrustedPanelMessage dev scriptOrigin evt s.trust).2 = false →
        (handlePanelMessage dev scriptOrigin runtime device evt s).subscribers = s.subscribers ∧
        (handlePanelMessage dev scriptOrigin runtime device evt s).subscriberOrigins =
          s.subscriberOrigins ∧
        (handlePanelMessage dev scriptOrigin runtime device evt s).latestSelectionState =
          s.latestSelectionState ∧
        (handlePanelMessage dev scriptOrigin runtime device evt s).devMockActive =
          s.devMockActive) ∧
    (∀ (dev : Bool) (evt : MsgEvent) (t : PanelTrust) (s : PanelState),
        (isTrustedDesignerMessage dev evt t).2 = false →
        (panelHandleSelectionMessage dev evt t s).2 = s) ∧
    (∀ o : Origin, initBridgeTrust (some o) =
        { trustedPanelOrigin := some o, panelOriginConfirmed := true,
          trustedPanelWindow := none }) :=
  ⟨isTrustedPanelMessage_first_pins, isTrustedPanelMessage_rejects_other_origin,
    isTrustedPanelMessage_rejects_other_window, handlePanelMessage_rejected_unchanged,
    panelHandleSelectionMessage_rejected_unchanged, fun _ => rfl⟩

/-- C1 witness: with no script origin, the first message — from a
`webflow-ext.com` subdomain panel, window 7 — pins that origin and
window and is accepted; a follow-up message from a sibling
`website-files.com` origin is then rejected with the trust cell
unchanged. -/
theorem C1_firstWriterWinsTrust_witness :
    isTrustedPanelMessage false none
      { origin := some { host := "panel.webflow-ext.com" }, source := some { id := 7 },
        data := .subscribe }
      (initBridgeTrust none) =
      ({ trustedPanelOrigin := some { host := "panel.webflow-ext.com" },
         panelOriginConfirmed := true, trustedPanelWindow := some { id := 7 } }, true) ∧
    isTrustedPanelMessage false none
      { origin := some { host := "assets.website-files.com" }, source := some { id := 8 },
        data := .subscribe }
      { trustedPanelOrigin := some { host := "panel.webflow-ext.com" },
        panelOriginConfirmed := true, trustedPanelWindow := some { id := 7 } } =
      ({ trustedPanelOrigin := some { host := "panel.webflow-ext.com" },
         panelOriginConfirmed := true, trustedPanelWindow := some { id := 7 } }, false) := by
  constructor
  · exact C1_firstWriterWinsTrust.1 false
      { origin := some { host := "panel.webflow-ext.com" }, source := some { id := 7 },
        data := .subscribe }
      { host := "panel.webflow-ext.com" } { id := 7 } rfl rfl rfl (by decide)
  · exact C1_firstWriterWinsTrust.2.1 false none
      { origin := some { host := "assets.website-files.com" }, source := some { id := 8 },
        data := .subscribe }
      { trustedPanelOrigin := some { host := "panel.webflow-ext.com" },
        panelOriginConfirmed := true, trustedPanelWindow := some { id := 7 } }
      { host := "assets.website-files.com" } rfl rfl rfl (by decide)

/-- C1 counterexample: the claim says the *first* message whose origin
is acceptable pins that origin for the session.  But when the bridge
script was loaded from a known origin, that origin is pre-pinned at
load, and the session's very first message — whose origin
`https://panel.webflow-ext.com` *is* acceptable — is rejected outright
and pins nothing: the trusted origin stays the script origin. -/
theorem C1_firstWriterWinsTrust_counterexample :
    isAllowedPanelOrigin false (some { host := "cdn.example-scripts.com" })
      (some { host := "panel.webflow-ext.com" }) = true ∧
    isTrustedPanelMessage false (some { host := "cdn.example-scripts.com" })
      { origin := some { host := "panel.webflow-ext.com" }, source := some { id := 7 },
        data := .subscribe }
      (initBridgeTrust (some { host := "cdn.example-scripts.com" })) =
      (initBridgeTrust (some { host := "cdn.example-scripts.com" }), false) := by
  exact ⟨by decide, by decide⟩
